import Mathlib

/-!
Shallow embedding of the velitherm thermodynamics library (src/index.ts)
over the real numbers, together with proofs of the algebraic and numeric
properties its specification states.

Every function below is a direct transcription of the corresponding
TypeScript function: `Math.pow` with a real exponent becomes `Real.rpow`
(written `x ^ (y : ℝ)`), `Math.log` becomes `Real.log`, `Math.exp`
becomes `Real.exp`.  Optional parameters (`pressure0 = P0`, `temp = T0`)
are made explicit parameters here; call sites that rely on the default
pass the default constant explicitly.
-/

namespace Velitherm

noncomputable section

/-- Earth's average gravity acceleration (m/s²). -/
def G : ℝ := 9.81

/-- The thermal capacity of air (J/kg). -/
def Cp : ℝ := 1005

/-- The enthalpy of vaporization of water (J/kg). -/
def L : ℝ := 2.5e6

/-- The adiabatic lapse rate of dry air (°C/m). -/
def gamma : ℝ := 0.00976

/-- Mean environmental lapse rate of the troposphere (°C/m). -/
def ELR : ℝ := 0.0065

/-- The average sea level pressure (hPa). -/
def P0 : ℝ := 1013.25

/-- The temperature of the ICAO standard atmosphere (°C). -/
def T0 : ℝ := 15

/-- The specific gas constant of dry air J/(kg·K). -/
def Rd : ℝ := 287.058

/-- The specific gas constant of water vapor J/(kg·K). -/
def Rv : ℝ := 461.495

/-- Molar mass of dry air kg/mol. -/
def Md : ℝ := 0.0289652

/-- Molar mass of water vapor kg/mol. -/
def Mv : ℝ := 0.018016

/-- Universal gas constant J/(kg·mol). -/
def R : ℝ := 8.31446

/-- Absolute zero in °C. -/
def K : ℝ := -273.15

/-- Number of feet in one meter. -/
def feetPerMeter : ℝ := 3.28084

/-- Altitude from pressure, barometric formula, ICAO standard atmosphere.
Source: `44330.0 * (1.0 - Math.pow(pressure / pressure0, 1 / 5.255))`. -/
def altitudeFromStandardPressure (pressure : ℝ) (pressure0 : ℝ) : ℝ :=
  44330.0 * (1.0 - (pressure / pressure0) ^ ((1 : ℝ) / 5.255))

/-- Pressure from altitude, barometric formula, ICAO standard atmosphere.
Source: `pressure0 * Math.pow(1 - height / 44330.0, 5.255)`. -/
def pressureFromStandardAltitude (height : ℝ) (pressure0 : ℝ) : ℝ :=
  pressure0 * (1 - height / 44330.0) ^ (5.255 : ℝ)

/-- Altitude from pressure using the hypsometric formula.
Source: `29.3 * (temp - K) * Math.log(pressure0 / pressure)`. -/
def altitudeFromPressure (pressure : ℝ) (pressure0 : ℝ) (temp : ℝ) : ℝ :=
  29.3 * (temp - K) * Real.log (pressure0 / pressure)

/-- Pressure from altitude using the hypsometric formula.
Source: `pressure0 / Math.exp(height / (29.3 * (temp - K)))`. -/
def pressureFromAltitude (height : ℝ) (pressure0 : ℝ) (temp : ℝ) : ℝ :=
  pressure0 / Real.exp (height / (29.3 * (temp - K)))

/-- Saturation water vapor pressure, Magnus-Tetens approximation.
Source: `6.1078 * Math.exp(17.27 * temp / (temp + 237.3))`. -/
def waterVaporSaturationPressure (temp : ℝ) : ℝ :=
  6.1078 * Real.exp (17.27 * temp / (temp + 237.3))

/-- Relative humidity from specific humidity.
Source: `specificHumidity / (6.22 * waterVaporSaturationPressure(temp) / pressure)`. -/
def relativeHumidity (specificHumidity : ℝ) (pressure : ℝ) (temp : ℝ) : ℝ :=
  specificHumidity / (6.22 * waterVaporSaturationPressure temp / pressure)

/-- Magnus equation coefficient b (Sonntag 1990). -/
def Sonntag_1990_b : ℝ := 17.62

/-- Magnus equation coefficient c (Sonntag 1990). -/
def Sonntag_1990_c : ℝ := 243.12

/-- Dew point from relative humidity (Magnus, Sonntag 1990 coefficients).
Source: `gamma = Math.log(relativeHumidity / 100) + b * temp / (c + temp);
return c * gamma / (b - gamma)`. -/
def dewPoint (relativeHumidity : ℝ) (temp : ℝ) : ℝ :=
  let gamma := Real.log (relativeHumidity / 100) +
    Sonntag_1990_b * temp / (Sonntag_1990_c + temp)
  Sonntag_1990_c * gamma / (Sonntag_1990_b - gamma)

/-- Relative humidity from dew point (Magnus, Sonntag 1990 coefficients).
Source: `gamma = dewPoint * b / (dewPoint + c);
return Math.exp(gamma - b * temp / (c + temp)) * 100`. -/
def relativeHumidityFromDewPoint (dewPoint : ℝ) (temp : ℝ) : ℝ :=
  let gamma := dewPoint * Sonntag_1990_b / (dewPoint + Sonntag_1990_c)
  Real.exp (gamma - Sonntag_1990_b * temp / (Sonntag_1990_c + temp)) * 100

/-- Mixing ratio from specific humidity.
Source: `specificHumidity / (1 - specificHumidity / 1000)`. -/
def mixingRatio (specificHumidity : ℝ) : ℝ :=
  specificHumidity / (1 - specificHumidity / 1000)

/-- Specific humidity from mixing ratio.
Source: `mixingRatio / (1 + mixingRatio / 1000)`. -/
def specificHumidityFromMixingRatio (mixingRatio : ℝ) : ℝ :=
  mixingRatio / (1 + mixingRatio / 1000)

/-- Specific humidity from relative humidity.
Source: `relativeHumidity / 100 *
(0.622 * waterVaporSaturationPressure(temp) / pressure) * 1000`. -/
def specificHumidity (relativeHumidity : ℝ) (pressure : ℝ) (temp : ℝ) : ℝ :=
  relativeHumidity / 100 *
    (0.622 * waterVaporSaturationPressure temp / pressure) * 1000

/-- Air density from relative humidity, pressure and temperature.
Source: `Psat = waterVaporSaturationPressure(temp); Pv = relativeHumidity / 100 * Psat;
Pd = pressure - Pv; return 100 * (Pd * Md + Pv * Mv) / (R * (temp - K))`. -/
def airDensity (relativeHumidity : ℝ) (pressure : ℝ) (temp : ℝ) : ℝ :=
  let Psat := waterVaporSaturationPressure temp
  let Pv := relativeHumidity / 100 * Psat
  let Pd := pressure - Pv
  100 * (Pd * Md + Pv * Mv) / (R * (temp - K))

/-- Heat capacity ratio of air (diatomic gas), internal constant `HCR = 1.4`. -/
def HCR : ℝ := 1.4

/-- Adiabatic cooling rate from pressure change rate.
Source: `(temp0 - K) * Math.pow(pressure / pressure0, (HCR - 1) / HCR) + K`. -/
def adiabaticCooling (temp0 : ℝ) (pressure : ℝ) (pressure0 : ℝ) : ℝ :=
  (temp0 - K) * (pressure / pressure0) ^ ((HCR - 1) / HCR) + K

/-- Convert a Flight Level to pressure.
Source: `pressureFromStandardAltitude(FL * 100 / feetPerMeter, P0)`. -/
def pressureFromFL (FL : ℝ) : ℝ :=
  pressureFromStandardAltitude (FL * 100 / feetPerMeter) P0

end

/-! ## Theorems -/

/-- C4: `mixingRatio` and `specificHumidityFromMixingRatio` are exact algebraic
inverses: for every specific humidity `q ≠ 1000` (in particular for all
`q ∈ [0, 50]` g/kg), `specificHumidityFromMixingRatio (mixingRatio q) = q`
over real arithmetic. -/
theorem C4_mixing_ratio_roundtrip (q : ℝ) (hq : q ≠ 1000) :
    specificHumidityFromMixingRatio (mixingRatio q) = q := by
  have hne : (1000 : ℝ) - q ≠ 0 := fun h => hq (by linarith)
  have h1 : (1 : ℝ) - q / 1000 ≠ 0 := fun h => hne (by linarith)
  have hm : mixingRatio q = 1000 * q / (1000 - q) := by
    unfold mixingRatio
    rw [div_eq_div_iff h1 hne]
    ring
  have hD : (1 : ℝ) + 1000 * q / (1000 - q) / 1000 = 1000 / (1000 - q) := by
    field_simp
    ring
  have hDne : (1000 : ℝ) / (1000 - q) ≠ 0 := div_ne_zero (by norm_num) hne
  unfold specificHumidityFromMixingRatio
  rw [hm, hD, div_eq_iff hDne]
  ring

/-- C4 witness: the round-trip at the concrete input `q = 10`. -/
theorem C4_mixing_ratio_roundtrip_witness :
    (10 : ℝ) ≠ 1000 ∧ specificHumidityFromMixingRatio (mixingRatio 10) = 10 :=
  ⟨by norm_num, C4_mixing_ratio_roundtrip 10 (by norm_num)⟩

/-- C5: for every `pressure > 0`, `pressure0 > 0` and `temp > -273.15`,
`altitudeFromPressure pressure pressure0 temp` is exactly
`29.3 * (temp - K) * Real.log (pressure0 / pressure)`, at full precision,
with no rounding to an integer number of meters. -/
theorem C5_altitudeFromPressure_formula (pressure pressure0 temp : ℝ)
    (hp : 0 < pressure) (hp0 : 0 < pressure0) (ht : -273.15 < temp) :
    altitudeFromPressure pressure pressure0 temp =
      29.3 * (temp - K) * Real.log (pressure0 / pressure) := rfl

/-- C5 witness: the formula at the concrete input (900, 1013.25, 15). -/
theorem C5_altitudeFromPressure_formula_witness :
    (0 : ℝ) < 900 ∧ (0 : ℝ) < 1013.25 ∧ (-273.15 : ℝ) < 15 ∧
      altitudeFromPressure 900 1013.25 15 =
        29.3 * (15 - K) * Real.log (1013.25 / 900) :=
  ⟨by norm_num, by norm_num, by norm_num,
    C5_altitudeFromPressure_formula 900 1013.25 15 (by norm_num) (by norm_num)
      (by norm_num)⟩

/-- C6: for every flight level `FL`, `pressureFromFL FL` equals
`pressureFromStandardAltitude (FL * 100 / feetPerMeter) P0`: the reference
pressure is always the constant `P0` and never a caller-supplied sea-level
pressure. -/
theorem C6_pressureFromFL_standard (FL : ℝ) :
    pressureFromFL FL =
      pressureFromStandardAltitude (FL * 100 / feetPerMeter) P0 := rfl

/-- C9: `airDensity 0 1013.25 35` (dry air at sea-level pressure and 35 °C)
equals `100 * (1013.25 * Md) / (R * (35 + 273.15))` and lies within `1e-3`
of 1.1455 kg/m³. -/
theorem C9_airDensity_dry_35 :
    airDensity 0 1013.25 35 = 100 * (1013.25 * Md) / (R * (35 + 273.15)) ∧
      |airDensity 0 1013.25 35 - 1.1455| < 1e-3 := by
  have h : airDensity 0 1013.25 35 = 100 * (1013.25 * Md) / (R * (35 + 273.15)) := by
    simp only [airDensity, K]
    norm_num
  refine ⟨h, ?_⟩
  rw [h, abs_lt]
  unfold Md R
  constructor <;> norm_num

/-- C1: the two hypsometric functions are exact algebraic inverses: for every
pressure `P > 0`, `pressure0 > 0` and temperature `temp > -273.15` °C,
`pressureFromAltitude (altitudeFromPressure P pressure0 temp) pressure0 temp = P`
over real arithmetic. -/
theorem C1_hypsometric_roundtrip (P p0 t : ℝ) (hP : 0 < P) (hp0 : 0 < p0)
    (ht : -273.15 < t) :
    pressureFromAltitude (altitudeFromPressure P p0 t) p0 t = P := by
  have h : (0 : ℝ) < t - K := by
    simp only [K]
    linarith
  have htK : (29.3 : ℝ) * (t - K) ≠ 0 := mul_ne_zero (by norm_num) (ne_of_gt h)
  have hfrac : (0 : ℝ) < p0 / P := div_pos hp0 hP
  unfold pressureFromAltitude altitudeFromPressure
  rw [mul_div_cancel_left₀ _ htK, Real.exp_log hfrac]
  field_simp

/-- C1 witness: the round-trip at the concrete input (900, 1013.25, 15). -/
theorem C1_hypsometric_roundtrip_witness :
    (0 : ℝ) < 900 ∧ (0 : ℝ) < 1013.25 ∧ (-273.15 : ℝ) < 15 ∧
      pressureFromAltitude (altitudeFromPressure 900 1013.25 15) 1013.25 15 = 900 :=
  ⟨by norm_num, by norm_num, by norm_num,
    C1_hypsometric_roundtrip 900 1013.25 15 (by norm_num) (by norm_num)
      (by norm_num)⟩

/-- C7: the coefficient 6.22 of `relativeHumidity` and the pair 0.622·1000 of
`specificHumidity` agree (both denote 622 after the percent scaling), so the
two conversions are mutually inverse: for every specific humidity `q`, every
pressure `p > 0` and every temperature `t ≠ -237.3` °C,
`specificHumidity (relativeHumidity q p t) p t = q` exactly over real
arithmetic. -/
theorem C7_specific_relative_humidity_roundtrip (q p t : ℝ) (hp : 0 < p)
    (ht : t ≠ -237.3) :
    specificHumidity (relativeHumidity q p t) p t = q := by
  have hPsat : 0 < waterVaporSaturationPressure t := by
    unfold waterVaporSaturationPressure
    positivity
  unfold specificHumidity relativeHumidity
  field_simp
  ring

/-- C7 witness: the round-trip at the concrete input (5, 1013.25, 15). -/
theorem C7_specific_relative_humidity_roundtrip_witness :
    (0 : ℝ) < 1013.25 ∧ (15 : ℝ) ≠ -237.3 ∧
      specificHumidity (relativeHumidity 5 1013.25 15) 1013.25 15 = 5 :=
  ⟨by norm_num, by norm_num,
    C7_specific_relative_humidity_roundtrip 5 1013.25 15 (by norm_num)
      (by norm_num)⟩

/-- C8: `altitudeFromStandardPressure` is strictly decreasing in its pressure
argument: for every `pressure0 > 0` and all pressures `0 < p1 < p2`,
`altitudeFromStandardPressure p2 pressure0 < altitudeFromStandardPressure p1 pressure0`. -/
theorem C8_altitudeFromStandardPressure_strictly_decreasing (p0 p1 p2 : ℝ)
    (hp0 : 0 < p0) (h1 : 0 < p1) (h12 : p1 < p2) :
    altitudeFromStandardPressure p2 p0 < altitudeFromStandardPressure p1 p0 := by
  have hdiv : p1 / p0 < p2 / p0 := (div_lt_div_iff_of_pos_right hp0).mpr h12
  have hpow : (p1 / p0) ^ ((1 : ℝ) / 5.255) < (p2 / p0) ^ ((1 : ℝ) / 5.255) :=
    Real.rpow_lt_rpow (le_of_lt (div_pos h1 hp0)) hdiv (by norm_num)
  unfold altitudeFromStandardPressure
  linarith

/-- C8 witness: strict decrease at the concrete inputs
`p0 = 1013.25`, `p1 = 900 < p2 = 1000`. -/
theorem C8_altitudeFromStandardPressure_strictly_decreasing_witness :
    (0 : ℝ) < 1013.25 ∧ (0 : ℝ) < 900 ∧ (900 : ℝ) < 1000 ∧
      altitudeFromStandardPressure 1000 1013.25 <
        altitudeFromStandardPressure 900 1013.25 :=
  ⟨by norm_num, by norm_num, by norm_num,
    C8_altitudeFromStandardPressure_strictly_decreasing 1013.25 900 1000
      (by norm_num) (by norm_num) (by norm_num)⟩

/-- C10: at fixed pressure `p > 0` and fixed temperature `temp > -273.15` °C,
`airDensity` is strictly decreasing in its relative-humidity argument
(humid air is lighter than dry air), because `Mv = 0.018016 < Md = 0.0289652`. -/
theorem C10_airDensity_strictly_decreasing_in_humidity (r1 r2 p t : ℝ)
    (hr : r1 < r2) (hp : 0 < p) (ht : -273.15 < t) :
    airDensity r2 p t < airDensity r1 p t := by
  have hPsat : 0 < waterVaporSaturationPressure t := by
    unfold waterVaporSaturationPressure
    positivity
  have hden : (0 : ℝ) < 8.31446 * (t - -273.15) :=
    mul_pos (by norm_num) (by linarith)
  simp only [airDensity, Md, Mv, R, K]
  rw [div_lt_div_iff_of_pos_right hden]
  nlinarith [mul_pos (show (0 : ℝ) < r2 - r1 by linarith) hPsat]

/-- C10 witness: strict decrease at the concrete inputs
`r1 = 0 < r2 = 50`, `p = 1013.25`, `t = 15`. -/
theorem C10_airDensity_strictly_decreasing_in_humidity_witness :
    (0 : ℝ) < 50 ∧ (0 : ℝ) < 1013.25 ∧ (-273.15 : ℝ) < 15 ∧
      airDensity 50 1013.25 15 < airDensity 0 1013.25 15 :=
  ⟨by norm_num, by norm_num, by norm_num,
    C10_airDensity_strictly_decreasing_in_humidity 0 50 1013.25 15
      (by norm_num) (by norm_num) (by norm_num)⟩

/-- Algebraic core of the Magnus inversion: applying the forward map
`g ↦ c * g / (b - g)` and then `d ↦ d * b / (d + c)` is the identity whenever
`g < b` (with the Sonntag 1990 values `b = 17.62`, `c = 243.12`). -/
lemma magnus_gamma_inverse (g : ℝ) (hg : g < 17.62) :
    243.12 * g / (17.62 - g) * 17.62 / (243.12 * g / (17.62 - g) + 243.12) = g := by
  have h1 : (17.62 : ℝ) - g ≠ 0 := (sub_pos.mpr hg).ne'
  have hd : 243.12 * g / (17.62 - g) + 243.12 = 243.12 * 17.62 / (17.62 - g) := by
    field_simp
    ring
  have h2 : (243.12 : ℝ) * 17.62 / (17.62 - g) ≠ 0 := div_ne_zero (by norm_num) h1
  rw [hd, div_eq_iff h2]
  ring

/-- C3: for every relative humidity `RH ∈ [10, 100]` and temperature
`T ∈ [-20, 40]` °C, `relativeHumidityFromDewPoint (dewPoint RH T) T` is exactly
`RH` over real arithmetic (both directions use the Sonntag 1990 coefficients
`b = 17.62`, `c = 243.12`), hence in particular within 1 percentage point. -/
theorem C3_dew_point_roundtrip (RH T : ℝ) (h10 : 10 ≤ RH) (h100 : RH ≤ 100)
    (hT1 : -20 ≤ T) (hT2 : T ≤ 40) :
    relativeHumidityFromDewPoint (dewPoint RH T) T = RH ∧
      |relativeHumidityFromDewPoint (dewPoint RH T) T - RH| < 1 := by
  have hcT : (0 : ℝ) < 243.12 + T := by linarith
  have hRHpos : (0 : ℝ) < RH / 100 := by
    have : (0 : ℝ) < RH := by linarith
    positivity
  have hlog : Real.log (RH / 100) ≤ 0 :=
    Real.log_nonpos (by linarith) (by linarith)
  have hfrac : 17.62 * T / (243.12 + T) < 17.62 := by
    rw [div_lt_iff₀ hcT]
    nlinarith
  have hg : Real.log (RH / 100) + 17.62 * T / (243.12 + T) < 17.62 := by
    linarith
  have key : relativeHumidityFromDewPoint (dewPoint RH T) T = RH := by
    simp only [relativeHumidityFromDewPoint, dewPoint, Sonntag_1990_b, Sonntag_1990_c]
    rw [magnus_gamma_inverse _ hg, add_sub_cancel_right, Real.exp_log hRHpos]
    exact div_mul_cancel₀ RH (by norm_num)
  exact ⟨key, by rw [key, sub_self, abs_zero]; norm_num⟩

/-- C3 witness: the round-trip at the concrete input `RH = 50`, `T = 20`. -/
theorem C3_dew_point_roundtrip_witness :
    (10 : ℝ) ≤ 50 ∧ (50 : ℝ) ≤ 100 ∧ (-20 : ℝ) ≤ 20 ∧ (20 : ℝ) ≤ 40 ∧
      (relativeHumidityFromDewPoint (dewPoint 50 20) 20 = 50 ∧
        |relativeHumidityFromDewPoint (dewPoint 50 20) 20 - 50| < 1) :=
  ⟨by norm_num, by norm_num, by norm_num, by norm_num,
    C3_dew_point_roundtrip 50 20 (by norm_num) (by norm_num) (by norm_num)
      (by norm_num)⟩

/-- The degree-3 Taylor partial sum of the exponential, written out. -/
lemma exp_sum_range_four (x : ℝ) :
    ∑ m ∈ Finset.range 4, x ^ m / (m.factorial : ℝ) =
      1 + x + x ^ 2 / 2 + x ^ 3 / 6 := by
  rw [Finset.sum_range_succ, Finset.sum_range_succ, Finset.sum_range_succ,
    Finset.sum_range_one]
  have h0 : Nat.factorial 0 = 1 := rfl
  have h1 : Nat.factorial 1 = 1 := rfl
  have h2 : Nat.factorial 2 = 2 := rfl
  have h3 : Nat.factorial 3 = 6 := rfl
  rw [h0, h1, h2, h3]
  push_cast
  ring

/-- Quartic-error upper bound for `exp` at a small negative argument. -/
lemma exp_upper_neg (c : ℝ) (h0 : 0 ≤ c) (h1 : c ≤ 1) :
    Real.exp (-c) ≤ 1 - c + c ^ 2 / 2 - c ^ 3 / 6 + c ^ 4 * (5 / 96) := by
  have habs : |(-c)| = c := by rw [abs_neg, abs_of_nonneg h0]
  have h := @Real.exp_bound (-c) (by rw [habs]; exact h1) 4 (by norm_num)
  rw [exp_sum_range_four, habs] at h
  have hfact : Nat.factorial 4 = 24 := rfl
  have hsucc : Nat.succ 4 = 5 := rfl
  rw [hfact, hsucc] at h
  push_cast at h
  have h2 := (abs_le.mp h).2
  nlinarith [h2]

/-- Quartic-error lower bound for `exp` at a small negative argument. -/
lemma exp_lower_neg (c : ℝ) (h0 : 0 ≤ c) (h1 : c ≤ 1) :
    1 - c + c ^ 2 / 2 - c ^ 3 / 6 - c ^ 4 * (5 / 96) ≤ Real.exp (-c) := by
  have habs : |(-c)| = c := by rw [abs_neg, abs_of_nonneg h0]
  have h := @Real.exp_bound (-c) (by rw [habs]; exact h1) 4 (by norm_num)
  rw [exp_sum_range_four, habs] at h
  have hfact : Nat.factorial 4 = 24 := rfl
  have hsucc : Nat.succ 4 = 5 := rfl
  rw [hfact, hsucc] at h
  push_cast at h
  have h2 := (abs_le.mp h).1
  nlinarith [h2]

/-- C2: the cross-formula lapse-rate invariant. The quantity
`(T0 - adiabaticCooling T0 (pressureFromStandardAltitude 100 P0)
(pressureFromStandardAltitude 0 P0)) / 100` differs from the dry adiabatic
lapse rate constant `gamma = 0.00976` by less than `1e-5` in absolute value. -/
theorem C2_adiabatic_lapse_cross_check :
    |(T0 - adiabaticCooling T0 (pressureFromStandardAltitude 100 P0)
        (pressureFromStandardAltitude 0 P0)) / 100 - gamma| < 1e-5 := by
  have hP0 : (P0 : ℝ) ≠ 0 := by norm_num [P0]
  have h0 : pressureFromStandardAltitude 0 P0 = P0 := by
    unfold pressureFromStandardAltitude
    norm_num [Real.one_rpow]
  have hr : pressureFromStandardAltitude 100 P0 / P0 =
      ((4423 : ℝ) / 4433) ^ (5.255 : ℝ) := by
    unfold pressureFromStandardAltitude
    rw [mul_div_cancel_left₀ _ hP0]
    norm_num
  have hcool : adiabaticCooling T0 (pressureFromStandardAltitude 100 P0)
      (pressureFromStandardAltitude 0 P0) =
      288.15 * ((4423 : ℝ) / 4433) ^ ((1051 : ℝ) / 700) + K := by
    unfold adiabaticCooling
    rw [h0, hr, ← Real.rpow_mul (by norm_num : (0 : ℝ) ≤ 4423 / 4433)]
    have he : (5.255 : ℝ) * ((HCR - 1) / HCR) = (1051 : ℝ) / 700 := by
      norm_num [HCR]
    rw [he]
    norm_num [T0, K]
  have hlogU : Real.log ((4423 : ℝ) / 4433) < -0.00225835 := by
    rw [Real.log_lt_iff_lt_exp (by norm_num)]
    have hb := exp_lower_neg 0.00225835 (by norm_num) (by norm_num)
    have hnum : (4423 : ℝ) / 4433 <
        1 - 0.00225835 + 0.00225835 ^ 2 / 2 - 0.00225835 ^ 3 / 6 -
          0.00225835 ^ 4 * (5 / 96) := by norm_num
    linarith
  have hlogL : (-0.00225836 : ℝ) < Real.log ((4423 : ℝ) / 4433) := by
    rw [Real.lt_log_iff_exp_lt (by norm_num)]
    have hb := exp_upper_neg 0.00225836 (by norm_num) (by norm_num)
    have hnum : (1 : ℝ) - 0.00225836 + 0.00225836 ^ 2 / 2 - 0.00225836 ^ 3 / 6 +
        0.00225836 ^ 4 * (5 / 96) < 4423 / 4433 := by norm_num
    linarith
  have hw1 : (-0.00339077 : ℝ) < Real.log ((4423 : ℝ) / 4433) * ((1051 : ℝ) / 700) := by
    nlinarith [hlogL]
  have hw2 : Real.log ((4423 : ℝ) / 4433) * ((1051 : ℝ) / 700) < -0.00339075 := by
    nlinarith [hlogU]
  have hEexp : ((4423 : ℝ) / 4433) ^ ((1051 : ℝ) / 700) =
      Real.exp (Real.log ((4423 : ℝ) / 4433) * ((1051 : ℝ) / 700)) :=
    Real.rpow_def_of_pos (by norm_num) _
  have hE1 : (0.9966149 : ℝ) < ((4423 : ℝ) / 4433) ^ ((1051 : ℝ) / 700) := by
    rw [hEexp]
    have hmono := Real.exp_lt_exp.mpr hw1
    have hb := exp_lower_neg 0.00339077 (by norm_num) (by norm_num)
    have hnum : (0.9966149 : ℝ) <
        1 - 0.00339077 + 0.00339077 ^ 2 / 2 - 0.00339077 ^ 3 / 6 -
          0.00339077 ^ 4 * (5 / 96) := by norm_num
    linarith
  have hE2 : ((4423 : ℝ) / 4433) ^ ((1051 : ℝ) / 700) < 0.996615 := by
    rw [hEexp]
    have hmono := Real.exp_lt_exp.mpr hw2
    have hb := exp_upper_neg 0.00339075 (by norm_num) (by norm_num)
    have hnum : (1 : ℝ) - 0.00339075 + 0.00339075 ^ 2 / 2 - 0.00339075 ^ 3 / 6 +
        0.00339075 ^ 4 * (5 / 96) < 0.996615 := by norm_num
    linarith
  rw [hcool]
  simp only [T0, gamma, K]
  rw [abs_lt]
  constructor
  · linarith
  · linarith

end Velitherm
